import Mathlib

/-!
Verification of the PULSE-AI stress-prediction backend (prediction pipeline).

Shallow embedding of the Python sources:
  * `Backend/schemas.py`               — request/response schemas and validation
  * `Backend/app.py`                   — serving endpoint, inline ModelService, cache, fallback
  * `Backend/services/model_service.py`— richer ModelService (encoding, inference, insights)
  * `Backend/services/response_formatter.py` — ResponseFormatter (categorization, recommendations)

Modelling conventions:
  * Python floats are modelled as exact rationals (`ℚ`); all constants in the code are
    decimal literals, so this is faithful for every value the theorems touch.
  * Python dicts carrying the model-format payload are modelled as `String → Option PyValue`.
  * A Python function that can raise and is wrapped in `try/except` is modelled with
    `Option`, the `except` branch giving the default the code installs.
  * Wall-clock instants (`datetime.now()`) are modelled as rationals (seconds); the cache
    TTL `timedelta(minutes=5)` becomes the rational `300`.
-/

/-- A dynamically-typed Python value as it appears in the model-format payload:
either a string (categorical fields) or a number (numeric fields). -/
inductive PyValue where
  | str (s : String)
  | num (q : ℚ)
deriving DecidableEq, Repr

/-- The model-format payload dict (`to_model_format` output and friends). -/
abbrev PyDict := String → Option PyValue

/-- The value returned by `model.predict(...)[0]`: an integer class code or a string label. -/
inductive PyPred where
  | int (n : ℤ)
  | str (s : String)
deriving DecidableEq, Repr

/-- Python `str(prediction)`: integers print in decimal, strings pass through. -/
def pyStr : PyPred → String
  | .int n => toString n
  | .str s => s

/-- The classifier object inside the artifact: `predict` on a single-row batch
(`model.predict(x)[0]`), optional `predict_proba` (per-class probabilities for the row),
optional `feature_importances_`. -/
structure PyModel where
  predictOne : List ℚ → PyPred
  predict_proba : Option (List ℚ → List ℚ)
  feature_importances : Option (List ℚ)

/-- Dict lookup on an association list (Python `d[k]` / `k in d`). -/
def dictGet {α : Type} (l : List (String × α)) (k : String) : Option α :=
  (l.find? (fun p => p.1 == k)).map (fun p => p.2)

/-- `np.max` over a list: fails (raises) on an empty list. -/
def listMax : List ℚ → Option ℚ
  | [] => none
  | x :: xs => some (xs.foldl max x)

/-- Reading a number out of the payload with Python `d.get(f, 0)` semantics, as used in
comparisons: a missing key yields the default `0`; a string value makes the subsequent
numeric comparison raise `TypeError` (modelled as `none`). -/
def getNum (d : PyDict) (f : String) : Option ℚ :=
  match d f with
  | some (.num q) => some q
  | some (.str _) => none
  | none => some 0

/-- Python `d.get(f, default)` for uses where the value is only compared for equality
or membership (string comparisons never raise). -/
def getVal (d : PyDict) (f : String) (default : PyValue) : PyValue :=
  match d f with
  | some v => v
  | none => default

/-- One step of Python `str.title()` over ASCII: an alphabetic character is uppercased
when the previous character was not alphabetic, lowercased otherwise. -/
def titleAux : Bool → List Char → List Char
  | _, [] => []
  | prevAlpha, c :: cs =>
      (if c.isAlpha then (if prevAlpha then c.toLower else c.toUpper) else c)
        :: titleAux c.isAlpha cs

/-- Python `str.title()` (ASCII scope; the labels being matched are ASCII). -/
def pytitle (s : String) : String :=
  String.mk (titleAux false s.data)

/-- Python `str.strip()`: drop leading and trailing whitespace (ASCII scope). -/
def pystrip (s : String) : String :=
  String.mk (((s.data.dropWhile Char.isWhitespace).reverse.dropWhile
    Char.isWhitespace).reverse)

/-- Python `round(v, 1)`: round to one decimal place. Exact on one-decimal inputs,
which is the only place the theorems evaluate it. -/
def round1 (q : ℚ) : ℚ :=
  (round (q * 10) : ℤ) / 10

namespace Schemas

/-- `GenderEnum` from `schemas.py`. -/
inductive GenderEnum where
  | male | female
deriving DecidableEq, Repr

def GenderEnum.toStr : GenderEnum → String
  | .male => "Male"
  | .female => "Female"

/-- `SmokingHabitEnum` from `schemas.py`. -/
inductive SmokingHabitEnum where
  | yes | no
deriving DecidableEq, Repr

def SmokingHabitEnum.toStr : SmokingHabitEnum → String
  | .yes => "Yes"
  | .no => "No"

/-- `MeditationPracticeEnum` from `schemas.py`. -/
inductive MeditationPracticeEnum where
  | yes | no
deriving DecidableEq, Repr

def MeditationPracticeEnum.toStr : MeditationPracticeEnum → String
  | .yes => "Yes"
  | .no => "No"

/-- `ExerciseTypeEnum` from `schemas.py`. -/
inductive ExerciseTypeEnum where
  | cardio | yoga | strengthTraining | aerobics | walking | pilates
deriving DecidableEq, Repr

def ExerciseTypeEnum.toStr : ExerciseTypeEnum → String
  | .cardio => "Cardio"
  | .yoga => "Yoga"
  | .strengthTraining => "Strength Training"
  | .aerobics => "Aerobics"
  | .walking => "Walking"
  | .pilates => "Pilates"

/-- `StressLevelEnum` from `schemas.py`. -/
inductive StressLevelEnum where
  | low | medium | high
deriving DecidableEq, Repr

def StressLevelEnum.value : StressLevelEnum → String
  | .low => "Low"
  | .medium => "Medium"
  | .high => "High"

/-- pydantic coercion of a string into `StressLevelEnum`: exact match on the enum value. -/
def StressLevelEnum.ofString? (s : String) : Option StressLevelEnum :=
  if s = "Low" then some .low
  else if s = "Medium" then some .medium
  else if s = "High" then some .high
  else none

/-- A validated `StressPredictionRequest` (all field and cross-field constraints hold). -/
structure StressPredictionRequest where
  age : ℤ
  gender : GenderEnum
  sleep_duration : ℚ
  sleep_quality : ℤ
  physical_activity : ℤ
  screen_time : ℚ
  caffeine_intake : ℤ
  smoking_habit : SmokingHabitEnum
  work_hours : ℚ
  travel_time : ℚ
  social_interactions : ℤ
  meditation_practice : MeditationPracticeEnum
  exercise_type : ExerciseTypeEnum
deriving DecidableEq, Repr

/-- `StressPredictionRequest.to_model_format`: the dict handed to the model service,
with the capitalized feature names. -/
def to_model_format (r : StressPredictionRequest) : PyDict := fun f =>
  if f = "Age" then some (.num r.age)
  else if f = "Gender" then some (.str r.gender.toStr)
  else if f = "Sleep_Duration" then some (.num r.sleep_duration)
  else if f = "Sleep_Quality" then some (.num r.sleep_quality)
  else if f = "Physical_Activity" then some (.num r.physical_activity)
  else if f = "Screen_Time" then some (.num r.screen_time)
  else if f = "Caffeine_Intake" then some (.num r.caffeine_intake)
  else if f = "Smoking_Habit" then some (.str r.smoking_habit.toStr)
  else if f = "Work_Hours" then some (.num r.work_hours)
  else if f = "Travel_Time" then some (.num r.travel_time)
  else if f = "Social_Interactions" then some (.num r.social_interactions)
  else if f = "Meditation_Practice" then some (.str r.meditation_practice.toStr)
  else if f = "Exercise_Type" then some (.str r.exercise_type.toStr)
  else none

/-- `WellnessTask` from `schemas.py` (pydantic enforces `reward ≥ 0` on construction;
every construction site in the sources uses a nonnegative literal). -/
structure WellnessTask where
  id : String
  title : String
  type : String
  link : String
  reward : ℤ
deriving DecidableEq, Repr

/-- `WellnessPlan` from `schemas.py`. -/
structure WellnessPlan where
  title : String
  summary : String
  tasks : List WellnessTask
deriving DecidableEq, Repr

/-- `StressPredictionResponse` from `schemas.py` (the FormattedResponse). -/
structure StressPredictionResponse where
  level : StressLevelEnum
  score : ℤ
  confidence : ℚ
  insights : List String
  recommendations : List String
  wellness_plan : WellnessPlan
  model_name : Option String
  model_score : Option ℚ
  feature_importance : Option (List (String × ℚ))
deriving DecidableEq, Repr

/-- pydantic construction of `StressPredictionResponse` from dynamic data: the level
string must coerce into `StressLevelEnum`, `0 ≤ score ≤ 100` and `0 ≤ confidence ≤ 1`
(the `Field` constraints); failure raises, which callers turn into the fallback. -/
def mkStressPredictionResponse (level : String) (score : ℤ) (confidence : ℚ)
    (insights recommendations : List String) (wellness_plan : WellnessPlan)
    (model_name : Option String) (model_score : Option ℚ)
    (feature_importance : Option (List (String × ℚ))) : Option StressPredictionResponse :=
  match StressLevelEnum.ofString? level with
  | none => none
  | some l =>
      if 0 ≤ score ∧ score ≤ 100 ∧ 0 ≤ confidence ∧ confidence ≤ 1 then
        some ⟨l, score, confidence, insights, recommendations, wellness_plan,
              model_name, model_score, feature_importance⟩
      else none

/-- A raw request body before validation: each of the 13 declared fields is present
or missing. Values are carried at their JSON types (type-coercion failures are outside
the claims; the claims concern presence, ranges, enums and the cross-field invariant). -/
structure RawStressPredictionRequest where
  age : Option ℤ
  gender : Option String
  sleep_duration : Option ℚ
  sleep_quality : Option ℤ
  physical_activity : Option ℤ
  screen_time : Option ℚ
  caffeine_intake : Option ℤ
  smoking_habit : Option String
  work_hours : Option ℚ
  travel_time : Option ℚ
  social_interactions : Option ℤ
  meditation_practice : Option String
  exercise_type : Option String
deriving DecidableEq, Repr

/-- One pydantic validation error as it appears in `e.errors()`: location (field name),
message, offending input. Messages follow pydantic v2 phrasing (apostrophes elided). -/
structure PydErr where
  loc : String
  msg : String
  input : Option PyValue
deriving DecidableEq, Repr

def requiredErr (f : String) : PydErr := ⟨f, "Field required", none⟩

def geErr (f : String) (bound : ℚ) (v : PyValue) : PydErr :=
  ⟨f, "Input should be greater than or equal to " ++ toString bound, some v⟩

def leErr (f : String) (bound : ℚ) (v : PyValue) : PydErr :=
  ⟨f, "Input should be less than or equal to " ++ toString bound, some v⟩

def enumErr (f : String) (v : PyValue) : PydErr :=
  ⟨f, "Input should be a valid enumeration member", some v⟩

/-- Errors for an integer field constrained by `Field(ge, le)`. -/
def intFieldErrors (f : String) (lo hi : ℤ) : Option ℤ → List PydErr
  | none => [requiredErr f]
  | some v =>
      if v < lo then [geErr f lo (.num v)]
      else if hi < v then [leErr f hi (.num v)]
      else []

/-- Errors for a float field constrained by `Field(ge, le)` (the custom field validators
in `schemas.py` re-check the same bounds, so at most one error per field is emitted,
exactly as pydantic reports). -/
def floatFieldErrors (f : String) (lo hi : ℚ) : Option ℚ → List PydErr
  | none => [requiredErr f]
  | some v =>
      if v < lo then [geErr f lo (.num v)]
      else if hi < v then [leErr f hi (.num v)]
      else []

/-- Errors for an enum-typed field. -/
def enumFieldErrors (f : String) (allowed : List String) : Option String → List PydErr
  | none => [requiredErr f]
  | some v => if v ∈ allowed then [] else [enumErr f (.str v)]

/-- All per-field validation errors of a raw request, collected in field declaration
order (pydantic validates every field and reports all failures together). -/
def validationErrors (raw : RawStressPredictionRequest) : List PydErr :=
  intFieldErrors "age" 18 65 raw.age ++
  enumFieldErrors "gender" ["Male", "Female"] raw.gender ++
  floatFieldErrors "sleep_duration" 4 12 raw.sleep_duration ++
  intFieldErrors "sleep_quality" 1 5 raw.sleep_quality ++
  intFieldErrors "physical_activity" 0 5 raw.physical_activity ++
  floatFieldErrors "screen_time" 1 14 raw.screen_time ++
  intFieldErrors "caffeine_intake" 0 8 raw.caffeine_intake ++
  enumFieldErrors "smoking_habit" ["Yes", "No"] raw.smoking_habit ++
  floatFieldErrors "work_hours" 4 16 raw.work_hours ++
  floatFieldErrors "travel_time" 0 4 raw.travel_time ++
  intFieldErrors "social_interactions" 1 5 raw.social_interactions ++
  enumFieldErrors "meditation_practice" ["Yes", "No"] raw.meditation_practice ++
  enumFieldErrors "exercise_type"
    ["Cardio", "Yoga", "Strength Training", "Aerobics", "Walking", "Pilates"]
    raw.exercise_type

def parseGender (s : String) : GenderEnum :=
  if s = "Male" then .male else .female

def parseSmoking (s : String) : SmokingHabitEnum :=
  if s = "Yes" then .yes else .no

def parseMeditation (s : String) : MeditationPracticeEnum :=
  if s = "Yes" then .yes else .no

def parseExercise (s : String) : ExerciseTypeEnum :=
  if s = "Cardio" then .cardio
  else if s = "Yoga" then .yoga
  else if s = "Strength Training" then .strengthTraining
  else if s = "Aerobics" then .aerobics
  else if s = "Walking" then .walking
  else .pilates

/-- The validated request built from a raw request once every per-field check passed
(the `getD` defaults are never exercised then); the four float fields are rounded to
one decimal by the custom field validators. -/
def buildValidated (raw : RawStressPredictionRequest) : StressPredictionRequest where
  age := raw.age.getD 0
  gender := parseGender (raw.gender.getD "")
  sleep_duration := round1 (raw.sleep_duration.getD 0)
  sleep_quality := raw.sleep_quality.getD 0
  physical_activity := raw.physical_activity.getD 0
  screen_time := round1 (raw.screen_time.getD 0)
  caffeine_intake := raw.caffeine_intake.getD 0
  smoking_habit := parseSmoking (raw.smoking_habit.getD "")
  work_hours := round1 (raw.work_hours.getD 0)
  travel_time := round1 (raw.travel_time.getD 0)
  social_interactions := raw.social_interactions.getD 0
  meditation_practice := parseMeditation (raw.meditation_practice.getD "")
  exercise_type := parseExercise (raw.exercise_type.getD "")

/-- The `validate_lifestyle_consistency` model validator error (runs only when every
per-field check passed; pydantic reports it with an empty location). -/
def lifestyleErr : PydErr :=
  ⟨"", "Value error, Total time allocation exceeds 24 hours per day", none⟩

/-- Full pydantic validation of a raw request (`StressPredictionRequest` in
`schemas.py`): collect all per-field errors; if none, run the cross-field
`validate_lifestyle_consistency` check on the (rounded) values. -/
def validate (raw : RawStressPredictionRequest) :
    Except (List PydErr) StressPredictionRequest :=
  match validationErrors raw with
  | [] =>
      let r := buildValidated raw
      if r.work_hours + r.sleep_duration + r.travel_time > 24 then
        .error [lifestyleErr]
      else
        .ok r
  | es => .error es

/-- `True` exactly when validation rejects the raw request. -/
def rejects (raw : RawStressPredictionRequest) : Bool :=
  match validate raw with
  | .error _ => true
  | .ok _ => false

end Schemas

namespace App

/-- One formatted entry of the 422 payload built in `predict_stress`
(`{"field": ..., "message": ..., "value": ...}`). -/
structure FieldError where
  field : String
  message : String
  value : Option PyValue
deriving DecidableEq, Repr

/-- The loop in `predict_stress` over `e.errors()`: one `{field, message, value}` entry
per pydantic error, in order. -/
def formatValidationErrors (es : List Schemas.PydErr) : List FieldError :=
  es.map (fun e => ⟨e.loc, e.msg, e.input⟩)

end App

namespace Services

open Schemas

/-- `expected_features` (identical in `app.py` and `services/model_service.py`). -/
def expected_features : List String :=
  ["Age", "Gender", "Sleep_Duration", "Sleep_Quality",
   "Physical_Activity", "Screen_Time", "Caffeine_Intake",
   "Smoking_Habit", "Work_Hours", "Travel_Time",
   "Social_Interactions", "Meditation_Practice", "Exercise_Type"]

/-- `categorical_mappings` (identical in `app.py` and `services/model_service.py`). -/
def categorical_mappings : List (String × List (String × ℤ)) :=
  [("Gender", [("Male", 0), ("Female", 1)]),
   ("Smoking_Habit", [("No", 0), ("Yes", 1)]),
   ("Meditation_Practice", [("No", 0), ("Yes", 1)]),
   ("Exercise_Type",
     [("Cardio", 0), ("Yoga", 1), ("Strength Training", 2),
      ("Aerobics", 3), ("Walking", 4), ("Pilates", 5)])]

/-- `stress_level_mappings` from `services/model_service.py`. -/
def stress_level_mappings : List (String × ℤ) :=
  [("Low", 0), ("Medium", 1), ("High", 2)]

/-- `reverse_stress_mappings`: inversion of `stress_level_mappings`. -/
def reverse_stress_mappings (n : ℤ) : Option String :=
  if n = 0 then some "Low"
  else if n = 1 then some "Medium"
  else if n = 2 then some "High"
  else none

/-- The shared state of a `ModelService` instance (fields are the same in `app.py` and
`services/model_service.py`; the two classes differ only in some method bodies). -/
structure ModelService where
  model : PyModel
  feature_names : List String
  model_name : String
  model_score : ℚ
  is_loaded : Bool

/-- Python `float(value)` applied to a payload value: numbers pass through; the strings
appearing in model-format payloads are categorical words, on which `float` raises
(`ValueError`), making the preprocessing return `None`. -/
def pyFloat : PyValue → Option ℚ
  | .num q => some q
  | .str _ => none

/-- The feature-encoding loop shared verbatim by `ModelService.preprocess_input` in
`app.py` and `services/model_service.py`: walk `feature_names` in order; a missing
feature or an unmapped categorical value aborts with `None`; categorical values map
through `categorical_mappings`, everything else converts with `float`. -/
def encodeFeatures (feature_names : List String) (input : PyDict) : Option (List ℚ) :=
  match feature_names with
  | [] => some []
  | f :: rest =>
      match input f with
      | none => none
      | some v =>
          match dictGet categorical_mappings f with
          | some table =>
              match v with
              | .str s =>
                  match dictGet table s with
                  | some code => (encodeFeatures rest input).map (fun l => (code : ℚ) :: l)
                  | none => none
              | .num _ => none
          | none =>
              match pyFloat v with
              | some q => (encodeFeatures rest input).map (fun l => q :: l)
              | none => none

/-- The table of checks performed by `ModelService._validate_input_ranges`
(`services/model_service.py`), in source order: feature name, lower and upper bound. -/
def rangeChecks : List (String × ℚ × ℚ) :=
  [("Age", 18, 65), ("Sleep_Duration", 4, 12), ("Sleep_Quality", 1, 5),
   ("Physical_Activity", 0, 5), ("Screen_Time", 1, 14), ("Caffeine_Intake", 0, 8),
   ("Work_Hours", 4, 16), ("Travel_Time", 0, 4), ("Social_Interactions", 1, 5)]

/-- Worker for `_validate_input_ranges`: run the checks in order accumulating messages;
a `TypeError` from comparing a non-number (modelled by `getNum` returning `none`) is
caught and appended as a generic validation error, ending the scan. -/
def validateRangesGo (input : PyDict) :
    List (String × ℚ × ℚ) → List String → List String
  | [], acc => acc
  | (f, lo, hi) :: rest, acc =>
      match getNum input f with
      | none => acc ++ ["Error during validation"]
      | some v =>
          validateRangesGo input rest
            (if lo ≤ v ∧ v ≤ hi then acc
             else acc ++ [f ++ " must be between " ++ toString lo ++ " and " ++ toString hi])

/-- `ModelService._validate_input_ranges` from `services/model_service.py`. -/
def _validate_input_ranges (input : PyDict) : List String :=
  validateRangesGo input rangeChecks []

/-- `ModelService.preprocess_input` from `services/model_service.py`: check that every
expected feature is present, validate ranges, then encode in `feature_names` order. -/
def ModelService.preprocess_input (feature_names : List String) (input : PyDict) :
    Option (List ℚ) :=
  if expected_features.all (fun f => (input f).isSome) then
    if _validate_input_ranges input = [] then
      encodeFeatures feature_names input
    else none
  else none

/-- The prediction-to-label step of `ModelService.predict` in
`services/model_service.py`: integer class codes map through `reverse_stress_mappings`
(an unknown code fails), string predictions are used directly (`str(prediction)`). -/
def toStressLevel : PyPred → Option String
  | .int n => reverse_stress_mappings n
  | .str s => some s

/-- The label-to-score step, duplicated verbatim in `app.py` and
`services/model_service.py`: fixed midpoints with default 50. -/
def numericalScoreOfLevel (level : String) : ℤ :=
  if level = "Low" then 25
  else if level = "Medium" then 50
  else if level = "High" then 75
  else 50

/-- Python `s.lower()` (ASCII scope). -/
def pylower (s : String) : String := String.mk (s.data.map Char.toLower)

/-- `ModelService._get_feature_importance` from `services/model_service.py`:
pair `feature_names` with `feature_importances_` (the loop adds an entry while the
index is in range of both lists, i.e. a zip). -/
def _get_feature_importance (ms : ModelService) : Option (List (String × ℚ)) :=
  if ms.is_loaded = false then none
  else
    match ms.model.feature_importances with
    | none => none
    | some scores => some (ms.feature_names.zip scores)

/-- `ModelService._generate_insights` from `services/model_service.py`. The body is
wrapped in `try/except`; a type error from comparing a non-numeric payload value
(modelled by `getNum` = `none`) lands in the `except` branch, which replaces the list
with the single generic insight. -/
def ModelService._generate_insights (ms : ModelService) (input : PyDict)
    (stress_level : String) : List String :=
  let generic := "Your current stress level is " ++ pylower stress_level
  let body : Option (List String) := do
    let sleep_duration ← getNum input "Sleep_Duration"
    let i1 : List String :=
      if sleep_duration < 6 then
        ["Your sleep duration is below the recommended 7-9 hours"]
      else if sleep_duration > 9 then
        ["You are getting plenty of sleep, which is great for stress management"]
      else []
    let work_hours ← getNum input "Work_Hours"
    let i2 : List String :=
      if work_hours > 10 then ["Long work hours may be a significant stress factor"] else []
    let physical_activity ← getNum input "Physical_Activity"
    let i3 : List String :=
      if physical_activity < 1 then ["Increasing physical activity could help reduce stress"]
      else []
    let i4 : List String :=
      match _get_feature_importance ms with
      | none => []
      | some fi =>
          match (fi.mergeSort (fun a b => b.2 ≤ a.2)).head? with
          | none => []
          | some top =>
              if (input top.1).isSome then
                ["Your " ++ pylower (top.1.replace "_" " ") ++
                 " appears to be a key factor in your stress level"]
              else []
    let screen_time ← getNum input "Screen_Time"
    let i5 : List String :=
      if screen_time > 8 then ["High screen time may be contributing to your stress levels"]
      else []
    let caffeine_intake ← getNum input "Caffeine_Intake"
    let i6 : List String :=
      if caffeine_intake > 3 then ["High caffeine intake might be affecting your stress levels"]
      else []
    let all := i1 ++ i2 ++ i3 ++ i4 ++ i5 ++ i6
    pure (if all = [] then [generic] else all)
  body.getD [generic]

/-- `ModelService._generate_recommendations` (identical in `app.py` and
`services/model_service.py`). -/
def ModelService._generate_recommendations (stress_level : String) : List String :=
  if stress_level = "Low" then
    ["Maintain your current healthy lifestyle habits",
     "Continue regular physical activity and good sleep schedule"]
  else if stress_level = "Medium" then
    ["Focus on improving sleep quality and duration",
     "Incorporate regular physical exercise into your routine",
     "Practice stress-reduction techniques like deep breathing"]
  else if stress_level = "High" then
    ["Prioritize getting adequate sleep (7-9 hours per night)",
     "Engage in regular physical activity to reduce stress hormones",
     "Practice meditation or mindfulness exercises daily",
     "Consider speaking with a healthcare professional"]
  else ["Focus on maintaining a balanced lifestyle"]

/-- The dict returned by a successful `ModelService.predict`. The `app.py` variant
omits the `feature_importance` key, which downstream reads with `.get` — modelled by
the field holding `none` there. -/
structure PredictResultDict where
  level : String
  score : ℤ
  confidence : ℚ
  insights : List String
  recommendations : List String
  model_name : String
  model_score : ℚ
  feature_importance : Option (List (String × ℚ))
deriving DecidableEq, Repr

/-- `ModelService.predict` from `services/model_service.py`: preprocess, run the
classifier, score confidence from `predict_proba` when available (default 0.8
otherwise; `np.max` on an empty distribution raises, which the enclosing `except`
turns into `None`), map the prediction to a label, attach score, insights,
recommendations and feature importance. -/
def ModelService.predict (ms : ModelService) (input : PyDict) :
    Option PredictResultDict :=
  if ms.is_loaded = false then none
  else
    match ModelService.preprocess_input ms.feature_names input with
    | none => none
    | some features =>
        let prediction := ms.model.predictOne features
        let conf : Option ℚ :=
          match ms.model.predict_proba with
          | some proba => listMax (proba features)
          | none => some (4 / 5)
        match conf with
        | none => none
        | some confidence =>
            match toStressLevel prediction with
            | none => none
            | some stress_level =>
                some { level := stress_level
                       score := numericalScoreOfLevel stress_level
                       confidence := confidence
                       insights := ModelService._generate_insights ms input stress_level
                       recommendations := ModelService._generate_recommendations stress_level
                       model_name := ms.model_name
                       model_score := ms.model_score
                       feature_importance := _get_feature_importance ms }

end Services

namespace Formatter

open Schemas

/-- The dynamic `raw_level` argument of `ResponseFormatter._categorize_stress_level`:
a string, a number (Python numbers, incl. int/float), or anything else. -/
inductive RawLevel where
  | str (s : String)
  | num (q : ℚ)
  | other
deriving DecidableEq, Repr

/-- `ResponseFormatter._categorize_stress_level` from `services/response_formatter.py`:
strings are stripped, title-cased and matched against the enum values; numbers are
bucketed at 0.33 and 0.66; everything else (and unmatched strings) defaults to Medium. -/
def _categorize_stress_level (raw_level : RawLevel) : StressLevelEnum :=
  match raw_level with
  | .str s =>
      match StressLevelEnum.ofString? (pytitle (pystrip s)) with
      | some l => l
      | none => .medium
  | .num q =>
      if q ≤ 33 / 100 then .low
      else if q ≤ 66 / 100 then .medium
      else .high
  | .other => .medium

/-- `ResponseFormatter._initialize_recommendation_templates` from
`services/response_formatter.py`. -/
def recommendation_templates : StressLevelEnum → List String
  | .low =>
      ["Maintain your current healthy lifestyle habits",
       "Continue regular physical activity and good sleep schedule",
       "Keep practicing stress-prevention techniques"]
  | .medium =>
      ["Focus on improving sleep quality and duration",
       "Incorporate regular physical exercise into your routine",
       "Practice stress-reduction techniques like deep breathing",
       "Consider time management strategies to reduce daily pressure"]
  | .high =>
      ["Prioritize getting adequate sleep (7-9 hours per night)",
       "Engage in regular physical activity to reduce stress hormones",
       "Practice meditation or mindfulness exercises daily",
       "Consider speaking with a healthcare professional",
       "Implement immediate stress-relief techniques",
       "Review and adjust your daily schedule to reduce pressure"]

/-- `ResponseFormatter._generate_personal_recommendations` from
`services/response_formatter.py`, accumulator-style like the Python body; the
`except` branch (a type error in one of the numeric comparisons) returns `[]`. -/
def _generate_personal_recommendations (input : PyDict) : List String :=
  let body : Option (List String) := do
    let sleep_duration ← getNum input "Sleep_Duration"
    let sleep_quality ← getNum input "Sleep_Quality"
    let acc : List String := []
    let acc := acc ++
      (if sleep_duration < 7 then ["Aim for 7-9 hours of sleep per night"] else [])
    let acc := acc ++
      (if sleep_quality < 3 then
        ["Focus on improving sleep quality through better sleep hygiene"]
      else [])
    let physical_activity ← getNum input "Physical_Activity"
    let exercise_type := getVal input "Exercise_Type" (.str "")
    let acc := acc ++
      (if physical_activity < 2 then
        ["Start with 30 minutes of daily physical activity"]
      else if exercise_type = .str "Walking" ∨ exercise_type = .str "Yoga" then
        ["Consider adding more vigorous exercise to your routine"]
      else [])
    let work_hours ← getNum input "Work_Hours"
    let acc := acc ++
      (if work_hours > 10 then ["Try to establish better work-life boundaries"] else [])
    let screen_time ← getNum input "Screen_Time"
    let acc := acc ++
      (if screen_time > 8 then
        ["Consider reducing screen time, especially before bed"]
      else [])
    let meditation := getVal input "Meditation_Practice" (.str "No")
    let acc := acc ++
      (if meditation = .str "No" then
        ["Try incorporating 10 minutes of daily meditation or mindfulness"]
      else [])
    pure acc
  body.getD []

/-- Order-preserving de-duplication with a seen-set accumulator, as in
`_generate_personalized_recommendations`. -/
def dedupFirstGo (seen : List String) : List String → List String
  | [] => []
  | x :: xs => if x ∈ seen then dedupFirstGo seen xs else x :: dedupFirstGo (x :: seen) xs

/-- De-duplicate preserving first occurrence. -/
def dedupFirst (l : List String) : List String := dedupFirstGo [] l

/-- `ResponseFormatter._generate_personalized_recommendations` from
`services/response_formatter.py`: template list for the level, then personalized
recommendations, de-duplicated preserving first occurrence and capped at 6. -/
def _generate_personalized_recommendations (stress_level : StressLevelEnum)
    (input : PyDict) : List String :=
  (dedupFirst (recommendation_templates stress_level ++
    _generate_personal_recommendations input)).take 6

end Formatter

namespace App

open Schemas Services

/-- `ModelService.preprocess_input` from `app.py`: the encoding loop only (this
variant performs no upfront range validation). -/
def ModelService.preprocess_input (ms : Services.ModelService) (input : PyDict) :
    Option (List ℚ) :=
  encodeFeatures ms.feature_names input

/-- `ModelService._generate_insights` from `app.py` (three threshold rules and a
generic default; the `except` branch installs the generic insight alone). -/
def ModelService._generate_insights (input : PyDict) (stress_level : String) :
    List String :=
  let generic := "Your current stress level is " ++ pylower stress_level
  let body : Option (List String) := do
    let sleep_duration ← getNum input "Sleep_Duration"
    let i1 : List String :=
      if sleep_duration < 6 then
        ["Your sleep duration is below the recommended 7-9 hours"]
      else []
    let work_hours ← getNum input "Work_Hours"
    let i2 : List String :=
      if work_hours > 10 then ["Long work hours may be a significant stress factor"] else []
    let physical_activity ← getNum input "Physical_Activity"
    let i3 : List String :=
      if physical_activity < 1 then ["Increasing physical activity could help reduce stress"]
      else []
    let all := i1 ++ i2 ++ i3
    pure (if all = [] then [generic] else all)
  body.getD [generic]

/-- `ModelService.predict` from `app.py`: preprocess, run the classifier, confidence
from `predict_proba` when present (else 0.8), label via `str(prediction)`, fixed
midpoint score, insights and recommendations; any exception yields `None`. -/
def ModelService.predict (ms : Services.ModelService) (input : PyDict) :
    Option PredictResultDict :=
  if ms.is_loaded = false then none
  else
    match ModelService.preprocess_input ms input with
    | none => none
    | some features =>
        let prediction := ms.model.predictOne features
        let conf : Option ℚ :=
          match ms.model.predict_proba with
          | some proba => listMax (proba features)
          | none => some (4 / 5)
        match conf with
        | none => none
        | some confidence =>
            let stress_level := pyStr prediction
            some { level := stress_level
                   score := numericalScoreOfLevel stress_level
                   confidence := confidence
                   insights := ModelService._generate_insights input stress_level
                   recommendations := Services.ModelService._generate_recommendations stress_level
                   model_name := ms.model_name
                   model_score := ms.model_score
                   feature_importance := none }

/-- `_create_wellness_plan` from `app.py`: label-indexed fixed plans (Low 2 tasks,
Medium 3, everything else 4). -/
def _create_wellness_plan (stress_level : String) (_insights : List String) :
    WellnessPlan :=
  if stress_level = "Low" then
    { title := "Maintenance Wellness Plan"
      summary := "Keep up your great habits with these maintenance activities"
      tasks :=
        [⟨"maintain-1", "Continue Regular Exercise", "lifestyle", "/wellness/exercise", 10⟩,
         ⟨"maintain-2", "Maintain Sleep Schedule", "lifestyle", "/wellness/sleep", 10⟩] }
  else if stress_level = "Medium" then
    { title := "Balanced Stress Management Plan"
      summary := "Targeted activities to help reduce your moderate stress levels"
      tasks :=
        [⟨"medium-1", "Daily Meditation Practice", "tool", "/tools/meditation", 15⟩,
         ⟨"medium-2", "Improve Sleep Hygiene", "article", "/articles/sleep-hygiene", 10⟩,
         ⟨"medium-3", "30-Minute Daily Walk", "lifestyle", "/wellness/walking", 15⟩] }
  else
    { title := "Intensive Stress Relief Plan"
      summary := "Comprehensive plan to help manage your high stress levels"
      tasks :=
        [⟨"high-1", "Deep Breathing Exercises", "tool", "/tools/breathing", 20⟩,
         ⟨"high-2", "Professional Stress Management", "article", "/articles/professional-help", 15⟩,
         ⟨"high-3", "Sleep Optimization Program", "lifestyle", "/wellness/sleep-program", 20⟩,
         ⟨"high-4", "Regular Exercise Routine", "lifestyle", "/wellness/exercise-routine", 20⟩] }

/-- `_create_fallback_response` from `app.py`: the fixed degraded/fallback
FormattedResponse (level Medium, score 50, confidence 0.5). -/
def _create_fallback_response : StressPredictionResponse where
  level := .medium
  score := 50
  confidence := 1 / 2
  insights :=
    ["We are experiencing technical difficulties with our analysis",
     "Please try again in a few minutes for a personalized assessment"]
  recommendations :=
    ["Focus on basic wellness practices",
     "Maintain regular sleep and exercise routines",
     "Practice stress-reduction techniques"]
  wellness_plan :=
    { title := "Basic Wellness Plan"
      summary := "General wellness recommendations while we resolve technical issues"
      tasks :=
        [⟨"fallback-1", "Practice Deep Breathing", "tool", "/tools/breathing", 10⟩,
         ⟨"fallback-2", "Take a Short Walk", "lifestyle", "/wellness/walking", 10⟩,
         ⟨"fallback-3", "Stay Hydrated", "lifestyle", "/wellness/hydration", 5⟩] }
  model_name := some "Fallback Response"
  model_score := none
  feature_importance := none

/-- `cache_ttl = timedelta(minutes=5)`, in seconds. -/
def cache_ttl : ℚ := 300

/-- `_is_cache_valid` from `app.py` (the implicit `datetime.now()` is passed
explicitly): an entry is valid while its age is strictly below the TTL. -/
def _is_cache_valid (now timestamp : ℚ) : Bool :=
  now - timestamp < cache_ttl

/-- One entry of `prediction_cache`: the formatted response and its creation time. -/
structure CacheEntry where
  response : StressPredictionResponse
  timestamp : ℚ
deriving DecidableEq, Repr

/-- `prediction_cache` as an association list with dict semantics (unique keys). -/
abbrev Cache := List (String × CacheEntry)

def cacheLookup (c : Cache) (k : String) : Option CacheEntry :=
  (c.find? (fun p => p.1 == k)).map (fun p => p.2)

/-- `del prediction_cache[key]`. -/
def cacheErase (c : Cache) (k : String) : Cache :=
  c.filter (fun p => ¬ p.1 == k)

/-- The cache-store block of `predict_stress`: insert (replacing any entry under the
same key), then sweep every entry whose age strictly exceeds the TTL. -/
def cacheStore (c : Cache) (k : String) (e : CacheEntry) (now : ℚ) : Cache :=
  ((k, e) :: cacheErase c k).filter (fun kv => ¬ now - kv.2.timestamp > cache_ttl)

/-- `_generate_cache_key` from `app.py`: an MD5 of the sorted-keys JSON of the
model-format payload. The digest is modelled by the serialized payload itself
(deterministic in the request; the cache only relies on key equality). -/
def _generate_cache_key (r : StressPredictionRequest) : String :=
  "Age:" ++ toString r.age ++
  "|Caffeine_Intake:" ++ toString r.caffeine_intake ++
  "|Exercise_Type:" ++ r.exercise_type.toStr ++
  "|Gender:" ++ r.gender.toStr ++
  "|Meditation_Practice:" ++ r.meditation_practice.toStr ++
  "|Physical_Activity:" ++ toString r.physical_activity ++
  "|Screen_Time:" ++ toString r.screen_time ++
  "|Sleep_Duration:" ++ toString r.sleep_duration ++
  "|Sleep_Quality:" ++ toString r.sleep_quality ++
  "|Smoking_Habit:" ++ r.smoking_habit.toStr ++
  "|Social_Interactions:" ++ toString r.social_interactions ++
  "|Travel_Time:" ++ toString r.travel_time ++
  "|Work_Hours:" ++ toString r.work_hours

/-- The module-level serving state read by `predict_stress`: the readiness flag, the
global service instance, the cache, and the current wall-clock instant. -/
structure AppState where
  model_loaded : Bool
  model_service : Option Services.ModelService
  prediction_cache : Cache
  now : ℚ

/-- The observable outcome of one `predict_stress` call: the response returned, the
cache afterwards, and whether the inference engine (`model_service.predict`) ran. -/
structure PredictCall where
  response : StressPredictionResponse
  cache : Cache
  inferenceInvoked : Bool
deriving Repr

/-- `predict_stress` from `app.py`, for an already-validated request: fallback when
degraded; cache lookup (valid hit returns the cached response, an invalid entry is
deleted); inference; wellness plan; pydantic response construction (failure falls
back); cache store with opportunistic sweep. -/
def predict_stress (st : AppState) (req : StressPredictionRequest) : PredictCall :=
  let model_input := to_model_format req
  match st.model_service, st.model_loaded with
  | some ms, true =>
      let key := _generate_cache_key req
      let afterLookup : Cache × Option StressPredictionResponse :=
        match cacheLookup st.prediction_cache key with
        | some entry =>
            if _is_cache_valid st.now entry.timestamp then
              (st.prediction_cache, some entry.response)
            else (cacheErase st.prediction_cache key, none)
        | none => (st.prediction_cache, none)
      match afterLookup.2 with
      | some resp => ⟨resp, afterLookup.1, false⟩
      | none =>
          match ModelService.predict ms model_input with
          | none => ⟨_create_fallback_response, afterLookup.1, true⟩
          | some pr =>
              let plan := _create_wellness_plan pr.level pr.insights
              match mkStressPredictionResponse pr.level pr.score pr.confidence
                  pr.insights pr.recommendations plan (some pr.model_name)
                  (some pr.model_score) pr.feature_importance with
              | none => ⟨_create_fallback_response, afterLookup.1, true⟩
              | some resp =>
                  ⟨resp, cacheStore afterLookup.1 key ⟨resp, st.now⟩ st.now, true⟩
  | _, _ => ⟨_create_fallback_response, st.prediction_cache, false⟩

end App

section ValidationLemmas

open Schemas

/-- `round1` is the identity on one-decimal values. -/
theorem round1_tenths {q : ℚ} (h : ∃ n : ℤ, q = n / 10) : round1 q = q := by
  obtain ⟨n, rfl⟩ := h
  have h10 : ((n : ℚ) / 10) * 10 = (n : ℚ) := by ring
  rw [round1, h10, round_intCast]

theorem intFieldErrors_eq_nil {f : String} {lo hi v : ℤ} (h1 : lo ≤ v) (h2 : v ≤ hi) :
    intFieldErrors f lo hi (some v) = [] := by
  simp [intFieldErrors, not_lt.mpr h1, not_lt.mpr h2]

theorem floatFieldErrors_eq_nil {f : String} {lo hi v : ℚ} (h1 : lo ≤ v) (h2 : v ≤ hi) :
    floatFieldErrors f lo hi (some v) = [] := by
  simp [floatFieldErrors, not_lt.mpr h1, not_lt.mpr h2]

theorem enumFieldErrors_eq_nil {f : String} {allowed : List String} {v : String}
    (h : v ∈ allowed) : enumFieldErrors f allowed (some v) = [] := by
  simp [enumFieldErrors, h]

/-- Builder for a raw request with every field supplied. -/
def mkRaw (age : ℤ) (gender : String) (sleep_duration : ℚ) (sleep_quality : ℤ)
    (physical_activity : ℤ) (screen_time : ℚ) (caffeine_intake : ℤ)
    (smoking_habit : String) (work_hours : ℚ) (travel_time : ℚ)
    (social_interactions : ℤ) (meditation_practice : String) (exercise_type : String) :
    RawStressPredictionRequest :=
  ⟨some age, some gender, some sleep_duration, some sleep_quality,
   some physical_activity, some screen_time, some caffeine_intake,
   some smoking_habit, some work_hours, some travel_time,
   some social_interactions, some meditation_practice, some exercise_type⟩

end ValidationLemmas

/-- General form of the lifestyle-sum invariant: with every field present and inside
its declared range (floats at one-decimal precision), validation rejects exactly when
the work/sleep/travel sum exceeds 24. -/
theorem rejects_iff_sum_gt_24 (age : ℤ) (gender : String) (sleep_duration : ℚ)
    (sleep_quality physical_activity : ℤ) (screen_time : ℚ) (caffeine_intake : ℤ)
    (smoking_habit : String) (work_hours travel_time : ℚ) (social_interactions : ℤ)
    (meditation_practice exercise_type : String)
    (hage1 : 18 ≤ age) (hage2 : age ≤ 65)
    (hgender : gender ∈ ["Male", "Female"])
    (hsd1 : 4 ≤ sleep_duration) (hsd2 : sleep_duration ≤ 12)
    (hsq1 : 1 ≤ sleep_quality) (hsq2 : sleep_quality ≤ 5)
    (hpa1 : 0 ≤ physical_activity) (hpa2 : physical_activity ≤ 5)
    (hst1 : 1 ≤ screen_time) (hst2 : screen_time ≤ 14)
    (hci1 : 0 ≤ caffeine_intake) (hci2 : caffeine_intake ≤ 8)
    (hsmoke : smoking_habit ∈ ["Yes", "No"])
    (hwh1 : 4 ≤ work_hours) (hwh2 : work_hours ≤ 16)
    (htt1 : 0 ≤ travel_time) (htt2 : travel_time ≤ 4)
    (hsi1 : 1 ≤ social_interactions) (hsi2 : social_interactions ≤ 5)
    (hmed : meditation_practice ∈ ["Yes", "No"])
    (hex : exercise_type ∈
      ["Cardio", "Yoga", "Strength Training", "Aerobics", "Walking", "Pilates"])
    (hsdT : ∃ n : ℤ, sleep_duration = n / 10) (hstT : ∃ n : ℤ, screen_time = n / 10)
    (hwhT : ∃ n : ℤ, work_hours = n / 10) (httT : ∃ n : ℤ, travel_time = n / 10) :
    Schemas.rejects (mkRaw age gender sleep_duration sleep_quality
      physical_activity screen_time caffeine_intake smoking_habit work_hours
      travel_time social_interactions meditation_practice exercise_type) = true
      ↔ work_hours + sleep_duration + travel_time > 24 := by
  have hve : Schemas.validationErrors (mkRaw age gender sleep_duration sleep_quality
      physical_activity screen_time caffeine_intake smoking_habit work_hours
      travel_time social_interactions meditation_practice exercise_type) = [] := by
    simp only [Schemas.validationErrors, mkRaw]
    rw [intFieldErrors_eq_nil hage1 hage2,
        enumFieldErrors_eq_nil hgender,
        floatFieldErrors_eq_nil hsd1 hsd2,
        intFieldErrors_eq_nil hsq1 hsq2,
        intFieldErrors_eq_nil hpa1 hpa2,
        floatFieldErrors_eq_nil hst1 hst2,
        intFieldErrors_eq_nil hci1 hci2,
        enumFieldErrors_eq_nil hsmoke,
        floatFieldErrors_eq_nil hwh1 hwh2,
        floatFieldErrors_eq_nil htt1 htt2,
        intFieldErrors_eq_nil hsi1 hsi2,
        enumFieldErrors_eq_nil hmed,
        enumFieldErrors_eq_nil hex]
    rfl
  have hb : (Schemas.buildValidated (mkRaw age gender sleep_duration sleep_quality
      physical_activity screen_time caffeine_intake smoking_habit work_hours
      travel_time social_interactions meditation_practice exercise_type)).work_hours
      = work_hours := by
    simp only [Schemas.buildValidated, mkRaw, Option.getD]
    exact round1_tenths hwhT
  have hs : (Schemas.buildValidated (mkRaw age gender sleep_duration sleep_quality
      physical_activity screen_time caffeine_intake smoking_habit work_hours
      travel_time social_interactions meditation_practice exercise_type)).sleep_duration
      = sleep_duration := by
    simp only [Schemas.buildValidated, mkRaw, Option.getD]
    exact round1_tenths hsdT
  have ht : (Schemas.buildValidated (mkRaw age gender sleep_duration sleep_quality
      physical_activity screen_time caffeine_intake smoking_habit work_hours
      travel_time social_interactions meditation_practice exercise_type)).travel_time
      = travel_time := by
    simp only [Schemas.buildValidated, mkRaw, Option.getD]
    exact round1_tenths httT
  unfold Schemas.rejects Schemas.validate
  rw [hve]
  simp only [hb, hs, ht]
  split_ifs with hc
  · simpa using hc
  · simpa using hc

/-- C4: for every request whose per-field values are within their declared ranges,
validation rejects the request iff `work_hours + sleep_duration + travel_time > 24`;
in particular work 16 / sleep 8 / travel 4 (sum 28) is rejected, work 8 / sleep 8 /
travel 4 (sum 20) is accepted, and a sum of exactly 24 (work 12 / sleep 8 / travel 4)
is accepted. -/
theorem C4_lifestyle_sum_invariant :
    (∀ (age : ℤ) (gender : String) (sleep_duration : ℚ) (sleep_quality physical_activity : ℤ)
       (screen_time : ℚ) (caffeine_intake : ℤ) (smoking_habit : String)
       (work_hours travel_time : ℚ) (social_interactions : ℤ)
       (meditation_practice exercise_type : String),
       18 ≤ age → age ≤ 65 →
       gender ∈ ["Male", "Female"] →
       4 ≤ sleep_duration → sleep_duration ≤ 12 →
       1 ≤ sleep_quality → sleep_quality ≤ 5 →
       0 ≤ physical_activity → physical_activity ≤ 5 →
       1 ≤ screen_time → screen_time ≤ 14 →
       0 ≤ caffeine_intake → caffeine_intake ≤ 8 →
       smoking_habit ∈ ["Yes", "No"] →
       4 ≤ work_hours → work_hours ≤ 16 →
       0 ≤ travel_time → travel_time ≤ 4 →
       1 ≤ social_interactions → social_interactions ≤ 5 →
       meditation_practice ∈ ["Yes", "No"] →
       exercise_type ∈
         ["Cardio", "Yoga", "Strength Training", "Aerobics", "Walking", "Pilates"] →
       (∃ n : ℤ, sleep_duration = n / 10) → (∃ n : ℤ, screen_time = n / 10) →
       (∃ n : ℤ, work_hours = n / 10) → (∃ n : ℤ, travel_time = n / 10) →
       (Schemas.rejects (mkRaw age gender sleep_duration sleep_quality
          physical_activity screen_time caffeine_intake smoking_habit work_hours
          travel_time social_interactions meditation_practice exercise_type) = true
         ↔ work_hours + sleep_duration + travel_time > 24))
    ∧ Schemas.rejects (mkRaw 30 "Male" 8 3 2 8 2 "No" 16 4 3 "Yes" "Cardio") = true
    ∧ Schemas.rejects (mkRaw 30 "Male" 8 3 2 8 2 "No" 8 4 3 "Yes" "Cardio") = false
    ∧ Schemas.rejects (mkRaw 30 "Male" 8 3 2 8 2 "No" 12 4 3 "Yes" "Cardio") = false := by
  have hgen := fun a g sd sq pa st ci sm wh tt si md ex h1 h2 h3 h4 h5 h6 h7 h8 h9 h10
      h11 h12 h13 h14 h15 h16 h17 h18 h19 h20 h21 h22 h23 h24 h25 =>
    rejects_iff_sum_gt_24 a g sd sq pa st ci sm wh tt si md ex h1 h2 h3 h4 h5 h6 h7 h8
      h9 h10 h11 h12 h13 h14 h15 h16 h17 h18 h19 h20 h21 h22 h23 h24 h25
  refine ⟨hgen, ?_, ?_, ?_⟩
  · exact (rejects_iff_sum_gt_24 30 "Male" 8 3 2 8 2 "No" 16 4 3 "Yes" "Cardio"
      (by norm_num) (by norm_num) (by simp) (by norm_num) (by norm_num) (by norm_num)
      (by norm_num) (by norm_num) (by norm_num) (by norm_num) (by norm_num)
      (by norm_num) (by norm_num) (by simp) (by norm_num) (by norm_num) (by norm_num)
      (by norm_num) (by norm_num) (by norm_num) (by simp) (by simp)
      ⟨80, by norm_num⟩ ⟨80, by norm_num⟩ ⟨160, by norm_num⟩ ⟨40, by norm_num⟩).mpr
      (by norm_num)
  · have h := rejects_iff_sum_gt_24 30 "Male" 8 3 2 8 2 "No" 8 4 3 "Yes" "Cardio"
      (by norm_num) (by norm_num) (by simp) (by norm_num) (by norm_num) (by norm_num)
      (by norm_num) (by norm_num) (by norm_num) (by norm_num) (by norm_num)
      (by norm_num) (by norm_num) (by simp) (by norm_num) (by norm_num) (by norm_num)
      (by norm_num) (by norm_num) (by norm_num) (by simp) (by simp)
      ⟨80, by norm_num⟩ ⟨80, by norm_num⟩ ⟨80, by norm_num⟩ ⟨40, by norm_num⟩
    have hne : ¬ ((8 : ℚ) + 8 + 4 > 24) := by norm_num
    rcases Bool.eq_false_or_eq_true
      (Schemas.rejects (mkRaw 30 "Male" 8 3 2 8 2 "No" 8 4 3 "Yes" "Cardio")) with htr | hf
    · exact absurd (h.mp htr) hne
    · exact hf
  · have h := rejects_iff_sum_gt_24 30 "Male" 8 3 2 8 2 "No" 12 4 3 "Yes" "Cardio"
      (by norm_num) (by norm_num) (by simp) (by norm_num) (by norm_num) (by norm_num)
      (by norm_num) (by norm_num) (by norm_num) (by norm_num) (by norm_num)
      (by norm_num) (by norm_num) (by simp) (by norm_num) (by norm_num) (by norm_num)
      (by norm_num) (by norm_num) (by norm_num) (by simp) (by simp)
      ⟨80, by norm_num⟩ ⟨80, by norm_num⟩ ⟨120, by norm_num⟩ ⟨40, by norm_num⟩
    have hne : ¬ ((12 : ℚ) + 8 + 4 > 24) := by norm_num
    rcases Bool.eq_false_or_eq_true
      (Schemas.rejects (mkRaw 30 "Male" 8 3 2 8 2 "No" 12 4 3 "Yes" "Cardio")) with htr | hf
    · exact absurd (h.mp htr) hne
    · exact hf

/-- Witness for C4: the general invariant instantiated at a concrete in-range request
(work 10, sleep 7, travel 2). -/
theorem C4_lifestyle_sum_invariant_witness :
    Schemas.rejects (mkRaw 40 "Female" 7 4 3 6 1 "Yes" 10 2 4 "No" "Yoga") = true
      ↔ (10 : ℚ) + 7 + 2 > 24 :=
  C4_lifestyle_sum_invariant.1 40 "Female" 7 4 3 6 1 "Yes" 10 2 4 "No" "Yoga"
    (by norm_num) (by norm_num) (by simp) (by norm_num) (by norm_num) (by norm_num)
    (by norm_num) (by norm_num) (by norm_num) (by norm_num) (by norm_num)
    (by norm_num) (by norm_num) (by simp) (by norm_num) (by norm_num) (by norm_num)
    (by norm_num) (by norm_num) (by norm_num) (by simp) (by simp)
    ⟨70, by norm_num⟩ ⟨60, by norm_num⟩ ⟨100, by norm_num⟩ ⟨20, by norm_num⟩

/-- A raw request missing three required fields (age, gender, sleep_duration), every
other field valid. -/
def rawMissing3 : Schemas.RawStressPredictionRequest :=
  ⟨none, none, none, some 3, some 2, some 8, some 2, some "No", some 8, some 1,
   some 3, some "Yes", some "Cardio"⟩

/-- C5: when a raw request violates several per-field constraints, the formatted
validation-error payload contains one `{field, message, value}` entry for every
violated constraint: any missing required field contributes its own entry, and a
request missing three required fields yields exactly the three corresponding entries
(not only the first). -/
theorem C5_all_violations_reported :
    (∀ raw : Schemas.RawStressPredictionRequest,
      (raw.age = none →
        (⟨"age", "Field required", none⟩ : App.FieldError) ∈
          App.formatValidationErrors (Schemas.validationErrors raw)) ∧
      (raw.gender = none →
        (⟨"gender", "Field required", none⟩ : App.FieldError) ∈
          App.formatValidationErrors (Schemas.validationErrors raw)) ∧
      (raw.sleep_duration = none →
        (⟨"sleep_duration", "Field required", none⟩ : App.FieldError) ∈
          App.formatValidationErrors (Schemas.validationErrors raw)) ∧
      (raw.sleep_quality = none →
        (⟨"sleep_quality", "Field required", none⟩ : App.FieldError) ∈
          App.formatValidationErrors (Schemas.validationErrors raw)) ∧
      (raw.physical_activity = none →
        (⟨"physical_activity", "Field required", none⟩ : App.FieldError) ∈
          App.formatValidationErrors (Schemas.validationErrors raw)) ∧
      (raw.screen_time = none →
        (⟨"screen_time", "Field required", none⟩ : App.FieldError) ∈
          App.formatValidationErrors (Schemas.validationErrors raw)) ∧
      (raw.caffeine_intake = none →
        (⟨"caffeine_intake", "Field required", none⟩ : App.FieldError) ∈
          App.formatValidationErrors (Schemas.validationErrors raw)) ∧
      (raw.smoking_habit = none →
        (⟨"smoking_habit", "Field required", none⟩ : App.FieldError) ∈
          App.formatValidationErrors (Schemas.validationErrors raw)) ∧
      (raw.work_hours = none →
        (⟨"work_hours", "Field required", none⟩ : App.FieldError) ∈
          App.formatValidationErrors (Schemas.validationErrors raw)) ∧
      (raw.travel_time = none →
        (⟨"travel_time", "Field required", none⟩ : App.FieldError) ∈
          App.formatValidationErrors (Schemas.validationErrors raw)) ∧
      (raw.social_interactions = none →
        (⟨"social_interactions", "Field required", none⟩ : App.FieldError) ∈
          App.formatValidationErrors (Schemas.validationErrors raw)) ∧
      (raw.meditation_practice = none →
        (⟨"meditation_practice", "Field required", none⟩ : App.FieldError) ∈
          App.formatValidationErrors (Schemas.validationErrors raw)) ∧
      (raw.exercise_type = none →
        (⟨"exercise_type", "Field required", none⟩ : App.FieldError) ∈
          App.formatValidationErrors (Schemas.validationErrors raw))) ∧
    (∃ es, Schemas.validate rawMissing3 = .error es ∧
      App.formatValidationErrors es =
        [⟨"age", "Field required", none⟩, ⟨"gender", "Field required", none⟩,
         ⟨"sleep_duration", "Field required", none⟩]) := by
  constructor
  · intro raw
    refine ⟨?_, ?_, ?_, ?_, ?_, ?_, ?_, ?_, ?_, ?_, ?_, ?_, ?_⟩ <;>
      intro h <;>
      simp [Schemas.validationErrors, App.formatValidationErrors, Schemas.intFieldErrors,
        Schemas.floatFieldErrors, Schemas.enumFieldErrors, h, Schemas.requiredErr]
  · exact ⟨Schemas.validationErrors rawMissing3, rfl, by decide⟩

/-- Witness for C5: the age conjunct of the general part instantiated at the
three-missing-fields request. -/
theorem C5_all_violations_reported_witness :
    (⟨"age", "Field required", none⟩ : App.FieldError) ∈
      App.formatValidationErrors (Schemas.validationErrors rawMissing3) :=
  (C5_all_violations_reported.1 rawMissing3).1 rfl

/-- Spec-side accessor into the nested categorical-mapping table. -/
def lookupMapping (feature value : String) : Option ℤ :=
  match dictGet Services.categorical_mappings feature with
  | some table => dictGet table value
  | none => none

/-- The exact numeric vector the encoder must produce for a validated request under
the canonical feature ordering. -/
def encodedRequest (r : Schemas.StressPredictionRequest) : List ℚ :=
  [(r.age : ℚ),
   (if r.gender = .male then 0 else 1),
   r.sleep_duration,
   (r.sleep_quality : ℚ),
   (r.physical_activity : ℚ),
   r.screen_time,
   (r.caffeine_intake : ℚ),
   (if r.smoking_habit = .no then 0 else 1),
   r.work_hours,
   r.travel_time,
   (r.social_interactions : ℚ),
   (if r.meditation_practice = .no then 0 else 1),
   (match r.exercise_type with
    | .cardio => 0 | .yoga => 1 | .strengthTraining => 2
    | .aerobics => 3 | .walking => 4 | .pilates => 5)]

/-- The encoder maps a validated in-range request to exactly `encodedRequest`:
categorical fields through the fixed tables, every other declared feature passed
through as a float. -/
theorem preprocess_model_format (r : Schemas.StressPredictionRequest)
    (h1 : 18 ≤ r.age) (h2 : r.age ≤ 65)
    (h3 : 4 ≤ r.sleep_duration) (h4 : r.sleep_duration ≤ 12)
    (h5 : 1 ≤ r.sleep_quality) (h6 : r.sleep_quality ≤ 5)
    (h7 : 0 ≤ r.physical_activity) (h8 : r.physical_activity ≤ 5)
    (h9 : 1 ≤ r.screen_time) (h10 : r.screen_time ≤ 14)
    (h11 : 0 ≤ r.caffeine_intake) (h12 : r.caffeine_intake ≤ 8)
    (h13 : 4 ≤ r.work_hours) (h14 : r.work_hours ≤ 16)
    (h15 : 0 ≤ r.travel_time) (h16 : r.travel_time ≤ 4)
    (h17 : 1 ≤ r.social_interactions) (h18 : r.social_interactions ≤ 5) :
    Services.ModelService.preprocess_input Services.expected_features
      (Schemas.to_model_format r) = some (encodedRequest r) := by
  have c1 : (18 : ℚ) ≤ (r.age : ℚ) := by exact_mod_cast h1
  have c2 : (r.age : ℚ) ≤ 65 := by exact_mod_cast h2
  have c3 : (1 : ℚ) ≤ (r.sleep_quality : ℚ) := by exact_mod_cast h5
  have c4 : (r.sleep_quality : ℚ) ≤ 5 := by exact_mod_cast h6
  have c5 : (0 : ℚ) ≤ (r.physical_activity : ℚ) := by exact_mod_cast h7
  have c6 : (r.physical_activity : ℚ) ≤ 5 := by exact_mod_cast h8
  have c7 : (0 : ℚ) ≤ (r.caffeine_intake : ℚ) := by exact_mod_cast h11
  have c8 : (r.caffeine_intake : ℚ) ≤ 8 := by exact_mod_cast h12
  have c9 : (1 : ℚ) ≤ (r.social_interactions : ℚ) := by exact_mod_cast h17
  have c10 : (r.social_interactions : ℚ) ≤ 5 := by exact_mod_cast h18
  have hall : Services.expected_features.all
      (fun f => ((Schemas.to_model_format r) f).isSome) = true := by
    simp [Services.expected_features, Schemas.to_model_format]
  have hranges : Services._validate_input_ranges (Schemas.to_model_format r) = [] := by
    simp [Services._validate_input_ranges, Services.validateRangesGo, Services.rangeChecks,
      getNum, Schemas.to_model_format, c1, c2, c3, c4, c5, c6, c7, c8, c9, c10,
      h3, h4, h9, h10, h13, h14, h15, h16]
  have hencode : Services.encodeFeatures Services.expected_features
      (Schemas.to_model_format r) = some (encodedRequest r) := by
    obtain ⟨age, gender, sd, sq, pa, st, ci, sm, wh, tt, si, mp, ex⟩ := r
    cases gender <;> cases sm <;> cases mp <;> cases ex <;> rfl
  unfold Services.ModelService.preprocess_input
  rw [hall, hranges]
  simpa using hencode

/-- A concrete valid request used to exercise the pipeline. -/
def reqExample : Schemas.StressPredictionRequest :=
  ⟨30, .male, 8, 3, 2, 8, 2, .no, 8, 1, 3, .yes, .cardio⟩

/-- `reqExample`'s payload with the exercise type replaced by an unmapped categorical
value (reachable only through artifact/schema mismatch, never through the typed schema). -/
def zumbaInput : PyDict := fun f =>
  if f = "Exercise_Type" then some (.str "Zumba")
  else Schemas.to_model_format reqExample f

/-- C6: the categorical tables map exactly as declared (in particular
Strength Training encodes to 2); every other declared feature of an in-range request
passes through as a float (full vector characterization); and an unmapped categorical
value makes the encoding step fail — no feature vector is produced and `predict`
returns no result (the caller then falls back) — while the range validator reports no
per-field error for it. -/
theorem C6_feature_encoding :
    lookupMapping "Gender" "Male" = some 0 ∧
    lookupMapping "Gender" "Female" = some 1 ∧
    lookupMapping "Smoking_Habit" "No" = some 0 ∧
    lookupMapping "Smoking_Habit" "Yes" = some 1 ∧
    lookupMapping "Meditation_Practice" "No" = some 0 ∧
    lookupMapping "Meditation_Practice" "Yes" = some 1 ∧
    lookupMapping "Exercise_Type" "Cardio" = some 0 ∧
    lookupMapping "Exercise_Type" "Yoga" = some 1 ∧
    lookupMapping "Exercise_Type" "Strength Training" = some 2 ∧
    lookupMapping "Exercise_Type" "Aerobics" = some 3 ∧
    lookupMapping "Exercise_Type" "Walking" = some 4 ∧
    lookupMapping "Exercise_Type" "Pilates" = some 5 ∧
    (∀ r : Schemas.StressPredictionRequest,
      18 ≤ r.age → r.age ≤ 65 →
      4 ≤ r.sleep_duration → r.sleep_duration ≤ 12 →
      1 ≤ r.sleep_quality → r.sleep_quality ≤ 5 →
      0 ≤ r.physical_activity → r.physical_activity ≤ 5 →
      1 ≤ r.screen_time → r.screen_time ≤ 14 →
      0 ≤ r.caffeine_intake → r.caffeine_intake ≤ 8 →
      4 ≤ r.work_hours → r.work_hours ≤ 16 →
      0 ≤ r.travel_time → r.travel_time ≤ 4 →
      1 ≤ r.social_interactions → r.social_interactions ≤ 5 →
      Services.ModelService.preprocess_input Services.expected_features
        (Schemas.to_model_format r) = some (encodedRequest r)) ∧
    Services.ModelService.preprocess_input Services.expected_features zumbaInput = none ∧
    (∀ ms : Services.ModelService, ms.feature_names = Services.expected_features →
      Services.ModelService.predict ms zumbaInput = none) ∧
    Services._validate_input_ranges zumbaInput = [] := by
  refine ⟨rfl, rfl, rfl, rfl, rfl, rfl, rfl, rfl, rfl, rfl, rfl, rfl,
    ?_, ?_, ?_, ?_⟩
  · intro r h1 h2 h3 h4 h5 h6 h7 h8 h9 h10 h11 h12 h13 h14 h15 h16 h17 h18
    exact preprocess_model_format r h1 h2 h3 h4 h5 h6 h7 h8 h9 h10 h11 h12 h13 h14
      h15 h16 h17 h18
  · rfl
  · intro ms hfn
    have hpre : Services.ModelService.preprocess_input ms.feature_names zumbaInput
        = none := by rw [hfn]; rfl
    cases hl : ms.is_loaded with
    | false => simp [Services.ModelService.predict, hl]
    | true => simp [Services.ModelService.predict, hl, hpre]
  · rfl

/-- Witness for C6: the full-vector characterization and the predict-failure conjunct
instantiated at `reqExample` and a concrete degraded service. -/
theorem C6_feature_encoding_witness :
    Services.ModelService.preprocess_input Services.expected_features
      (Schemas.to_model_format reqExample) = some (encodedRequest reqExample) ∧
    Services.ModelService.predict
      ⟨⟨fun _ => .str "Low", none, none⟩, Services.expected_features, "m", 1, true⟩
      zumbaInput = none := by
  constructor
  · exact C6_feature_encoding.2.2.2.2.2.2.2.2.2.2.2.2.1 reqExample
      (by decide) (by decide) (by decide) (by decide) (by decide)
      (by decide) (by decide) (by decide) (by decide) (by decide)
      (by decide) (by decide) (by decide) (by decide) (by decide)
      (by decide) (by decide) (by decide)
  · exact C6_feature_encoding.2.2.2.2.2.2.2.2.2.2.2.2.2.2.1
      ⟨⟨fun _ => .str "Low", none, none⟩, Services.expected_features, "m", 1, true⟩ rfl

/-- C7: the inference engine maps integer class codes through the fixed
`{0: Low, 1: Medium, 2: High}` table, uses string predictions directly, and the
string match against the levels is case-insensitive via strip + title-casing. -/
theorem C7_label_mapping :
    Services.toStressLevel (.int 0) = some "Low" ∧
    Services.toStressLevel (.int 1) = some "Medium" ∧
    Services.toStressLevel (.int 2) = some "High" ∧
    (∀ s : String, Services.toStressLevel (.str s) = some s) ∧
    (∀ s : String, pytitle (pystrip s) = "Low" →
      Formatter._categorize_stress_level (.str s) = .low) ∧
    (∀ s : String, pytitle (pystrip s) = "Medium" →
      Formatter._categorize_stress_level (.str s) = .medium) ∧
    (∀ s : String, pytitle (pystrip s) = "High" →
      Formatter._categorize_stress_level (.str s) = .high) := by
  refine ⟨rfl, rfl, rfl, fun s => rfl, ?_, ?_, ?_⟩ <;>
    intro s h <;>
    simp [Formatter._categorize_stress_level, h, Schemas.StressLevelEnum.ofString?]

/-- Witness for C7: the title-cased matching conjuncts at concrete
mixed-case padded strings. -/
theorem C7_label_mapping_witness :
    Formatter._categorize_stress_level (.str "  lOw ") = .low ∧
    Formatter._categorize_stress_level (.str "medium") = .medium ∧
    Formatter._categorize_stress_level (.str "HIGH") = .high :=
  ⟨C7_label_mapping.2.2.2.2.1 "  lOw " (by decide),
   C7_label_mapping.2.2.2.2.2.1 "medium" (by decide),
   C7_label_mapping.2.2.2.2.2.2 "HIGH" (by decide)⟩

/-- C8: the numeric score is a function of the label alone through the fixed midpoints
Low→25, Medium→50, High→75; every successful baseline prediction carries the score
determined by its level, independent of the confidence value. -/
theorem C8_score_from_label :
    Services.numericalScoreOfLevel "Low" = 25 ∧
    Services.numericalScoreOfLevel "Medium" = 50 ∧
    Services.numericalScoreOfLevel "High" = 75 ∧
    (∀ (ms : Services.ModelService) (input : PyDict) (r : Services.PredictResultDict),
      Services.ModelService.predict ms input = some r →
      r.score = Services.numericalScoreOfLevel r.level) := by
  refine ⟨rfl, rfl, rfl, ?_⟩
  intro ms input r h
  unfold Services.ModelService.predict at h
  split at h
  · simp at h
  · split at h
    · simp at h
    · dsimp only at h
      split at h
      · simp at h
      · split at h
        · simp at h
        · obtain rfl := Option.some.inj h
          rfl

/-- A ready service whose classifier constantly answers the string label Low
(no probability interface, no feature importances). -/
def msLow : Services.ModelService :=
  ⟨⟨fun _ => .str "Low", none, none⟩, Services.expected_features, "TestModel", 9 / 10, true⟩

/-- Witness for C8: a concrete successful prediction whose score is the midpoint of
its level. -/
theorem C8_score_from_label_witness :
    ∃ r : Services.PredictResultDict,
      Services.ModelService.predict msLow (Schemas.to_model_format reqExample) = some r ∧
      r.score = Services.numericalScoreOfLevel r.level :=
  ⟨_, rfl, C8_score_from_label.2.2.2 msLow (Schemas.to_model_format reqExample) _ rfl⟩

/-- Modelled from the claim wording for the stress-level categorization: a string is
stripped and title-cased then matched against the three levels; a number n is Low when
n ≤ 0.33, Medium when 0.33 < n ≤ 0.66, High otherwise; anything else is Medium. -/
def specCategorizeStressLevel (v : Formatter.RawLevel) : Schemas.StressLevelEnum :=
  match v with
  | .str s =>
      if pytitle (pystrip s) = "Low" then .low
      else if pytitle (pystrip s) = "Medium" then .medium
      else if pytitle (pystrip s) = "High" then .high
      else .medium
  | .num n =>
      if n ≤ 33 / 100 then .low
      else if 33 / 100 < n ∧ n ≤ 66 / 100 then .medium
      else .high
  | .other => .medium

/-- C10: the formatter's stress-level categorization is total (always one of Low,
Medium, High) and agrees with the claimed case analysis on every raw value. -/
theorem C10_categorize_total :
    (∀ v : Formatter.RawLevel,
      Formatter._categorize_stress_level v = specCategorizeStressLevel v) ∧
    (∀ v : Formatter.RawLevel,
      Formatter._categorize_stress_level v ∈
        [Schemas.StressLevelEnum.low, .medium, .high]) := by
  constructor
  · intro v
    cases v with
    | str s =>
        simp only [Formatter._categorize_stress_level, specCategorizeStressLevel,
          Schemas.StressLevelEnum.ofString?]
        split_ifs <;> rfl
    | num q =>
        by_cases h1 : q ≤ 33 / 100
        · simp [Formatter._categorize_stress_level, specCategorizeStressLevel, h1]
        · by_cases h2 : q ≤ 66 / 100
          · simp [Formatter._categorize_stress_level, specCategorizeStressLevel, h1, h2,
              not_le.mp h1]
          · simp [Formatter._categorize_stress_level, specCategorizeStressLevel, h1, h2]
    | other => rfl
  · intro v
    cases h : Formatter._categorize_stress_level v <;> simp

/-- Witness for C10: the equivalence and totality at a concrete padded string. -/
theorem C10_categorize_total_witness :
    Formatter._categorize_stress_level (.str " high ") =
      specCategorizeStressLevel (.str " high ") ∧
    Formatter._categorize_stress_level (.num (1 / 2)) ∈
      [Schemas.StressLevelEnum.low, .medium, .high] :=
  ⟨C10_categorize_total.1 (.str " high "), C10_categorize_total.2 (.num (1 / 2))⟩

/-- Modelled from the claim wording for the recommendation builder: personalized
recommendations triggered exactly by the five rules sleep_duration < 7,
physical_activity < 2, work_hours > 10, screen_time > 8, meditation_practice = No. -/
def claimPersonalRecommendations (input : PyDict) : List String :=
  (if (getNum input "Sleep_Duration").getD 0 < 7 then
    ["Aim for 7-9 hours of sleep per night"] else []) ++
  (if (getNum input "Physical_Activity").getD 0 < 2 then
    ["Start with 30 minutes of daily physical activity"] else []) ++
  (if (getNum input "Work_Hours").getD 0 > 10 then
    ["Try to establish better work-life boundaries"] else []) ++
  (if (getNum input "Screen_Time").getD 0 > 8 then
    ["Consider reducing screen time, especially before bed"] else []) ++
  (if getVal input "Meditation_Practice" (.str "No") = .str "No" then
    ["Try incorporating 10 minutes of daily meditation or mindfulness"] else [])

/-- The recommendation list as the claim describes it: level templates, then the
five claimed personalized rules, de-duplicated preserving first occurrence, capped
at 6. -/
def claimRecommendationsList (stress_level : Schemas.StressLevelEnum)
    (input : PyDict) : List String :=
  (Formatter.dedupFirst (Formatter.recommendation_templates stress_level ++
    claimPersonalRecommendations input)).take 6

/-- A payload on which only the sleep-quality rule (absent from the claim) fires:
sleep 8, quality 2, activity 3, exercise Cardio, work 8, screen 5, meditation Yes. -/
def quietInput : PyDict := fun f =>
  if f = "Sleep_Duration" then some (.num 8)
  else if f = "Sleep_Quality" then some (.num 2)
  else if f = "Physical_Activity" then some (.num 3)
  else if f = "Exercise_Type" then some (.str "Cardio")
  else if f = "Work_Hours" then some (.num 8)
  else if f = "Screen_Time" then some (.num 5)
  else if f = "Meditation_Practice" then some (.str "Yes")
  else none

/-- Counterexample for C9: on `quietInput` the code emits the sleep-quality
recommendation, which none of the claim's five rules produces (4 entries vs 3). -/
theorem C9_counterexample :
    Formatter._generate_personalized_recommendations .low quietInput ≠
      claimRecommendationsList .low quietInput := by decide

/-- The personalized rule set as the code actually implements it (amended claim):
the claim's five rules plus sleep_quality < 3, and for physical_activity ≥ 2 with
exercise type Walking or Yoga a vigorous-exercise recommendation, in source order. -/
def amendedPersonalRecommendations (input : PyDict) : List String :=
  (if (getNum input "Sleep_Duration").getD 0 < 7 then
    ["Aim for 7-9 hours of sleep per night"] else []) ++
  (if (getNum input "Sleep_Quality").getD 0 < 3 then
    ["Focus on improving sleep quality through better sleep hygiene"] else []) ++
  (if (getNum input "Physical_Activity").getD 0 < 2 then
    ["Start with 30 minutes of daily physical activity"]
   else if getVal input "Exercise_Type" (.str "") = .str "Walking" ∨
       getVal input "Exercise_Type" (.str "") = .str "Yoga" then
    ["Consider adding more vigorous exercise to your routine"]
   else []) ++
  (if (getNum input "Work_Hours").getD 0 > 10 then
    ["Try to establish better work-life boundaries"] else []) ++
  (if (getNum input "Screen_Time").getD 0 > 8 then
    ["Consider reducing screen time, especially before bed"] else []) ++
  (if getVal input "Meditation_Practice" (.str "No") = .str "No" then
    ["Try incorporating 10 minutes of daily meditation or mindfulness"] else [])


/-- On a payload whose numeric fields are numbers (as every model-format payload is),
the code's personalized-recommendation builder agrees with the amended rule set. -/
theorem personal_recs_welltyped (input : PyDict) (sd sq pa wh st : ℚ) (ex md : String)
    (h1 : getNum input "Sleep_Duration" = some sd)
    (h2 : getNum input "Sleep_Quality" = some sq)
    (h3 : getNum input "Physical_Activity" = some pa)
    (h4 : getNum input "Work_Hours" = some wh)
    (h5 : getNum input "Screen_Time" = some st)
    (h6 : getVal input "Exercise_Type" (.str "") = .str ex)
    (h7 : getVal input "Meditation_Practice" (.str "No") = .str md) :
    Formatter._generate_personal_recommendations input =
      amendedPersonalRecommendations input := by
  simp only [Formatter._generate_personal_recommendations, amendedPersonalRecommendations,
    h1, h2, h3, h4, h5, h6, h7, Option.some_bind, Option.getD_some]
  simp [List.append_assoc]

/-- C9 (amended): the recommendations list starts from the label templates (3 entries
for Low, 4 for Medium, 6 for High) and appends the personalized recommendations of the
full rule set — sleep_duration < 7, sleep_quality < 3, physical_activity < 2 (with a
vigorous-exercise recommendation instead when activity ≥ 2 and the exercise type is
Walking or Yoga), work_hours > 10, screen_time > 8, meditation_practice = No — then
de-duplicates preserving first occurrence and caps at 6. -/
theorem C9_recommendations_amended :
    (Formatter.recommendation_templates .low).length = 3 ∧
    (Formatter.recommendation_templates .medium).length = 4 ∧
    (Formatter.recommendation_templates .high).length = 6 ∧
    (∀ (level : Schemas.StressLevelEnum) (r : Schemas.StressPredictionRequest),
      Formatter._generate_personalized_recommendations level (Schemas.to_model_format r) =
        (Formatter.dedupFirst (Formatter.recommendation_templates level ++
          amendedPersonalRecommendations (Schemas.to_model_format r))).take 6) := by
  refine ⟨rfl, rfl, rfl, ?_⟩
  intro level r
  unfold Formatter._generate_personalized_recommendations
  rw [personal_recs_welltyped (Schemas.to_model_format r) r.sleep_duration
    r.sleep_quality r.physical_activity r.work_hours r.screen_time
    r.exercise_type.toStr r.meditation_practice.toStr rfl rfl rfl rfl rfl rfl rfl]

/-- Witness for C9 (amended): the builder equality at a concrete request and level. -/
theorem C9_recommendations_amended_witness :
    Formatter._generate_personalized_recommendations .high
        (Schemas.to_model_format reqExample) =
      (Formatter.dedupFirst (Formatter.recommendation_templates .high ++
        amendedPersonalRecommendations (Schemas.to_model_format reqExample))).take 6 :=
  C9_recommendations_amended.2.2.2 .high reqExample

/-- The response bounds asserted by the spec for every served prediction. -/
def GoodResponse (resp : Schemas.StressPredictionResponse) : Prop :=
  (resp.level = .low ∨ resp.level = .medium ∨ resp.level = .high) ∧
  0 ≤ resp.score ∧ resp.score ≤ 100 ∧
  0 ≤ resp.confidence ∧ resp.confidence ≤ 1 ∧
  1 ≤ resp.insights.length ∧ resp.insights.length ≤ 5 ∧
  1 ≤ resp.recommendations.length ∧ resp.recommendations.length ≤ 6 ∧
  1 ≤ resp.wellness_plan.tasks.length ∧ resp.wellness_plan.tasks.length ≤ 6

theorem goodResponse_fallback : GoodResponse App._create_fallback_response := by
  unfold GoodResponse App._create_fallback_response
  norm_num

theorem app_insights_len (input : PyDict) (level : String) :
    1 ≤ (App.ModelService._generate_insights input level).length ∧
    (App.ModelService._generate_insights input level).length ≤ 5 := by
  unfold App.ModelService._generate_insights
  rcases hsd : getNum input "Sleep_Duration" with _ | sd <;>
    rcases hwh : getNum input "Work_Hours" with _ | wh <;>
      rcases hpa : getNum input "Physical_Activity" with _ | pa <;>
        simp [hsd, hwh, hpa] <;> (try split_ifs <;> simp_arith)
  all_goals (push_neg at *; rename_i h1 h2 h3 h4; exact absurd (h4 h3 h2) (not_lt.mpr h1))

theorem recommendations_len (level : String) :
    1 ≤ (Services.ModelService._generate_recommendations level).length ∧
    (Services.ModelService._generate_recommendations level).length ≤ 6 := by
  unfold Services.ModelService._generate_recommendations
  split_ifs <;> simp

theorem wellness_tasks_len (level : String) (insights : List String) :
    1 ≤ (App._create_wellness_plan level insights).tasks.length ∧
    (App._create_wellness_plan level insights).tasks.length ≤ 6 := by
  unfold App._create_wellness_plan
  split_ifs <;> simp

theorem mkResponse_fields (level : String) (score : ℤ) (conf : ℚ)
    (ins recs : List String) (plan : Schemas.WellnessPlan) (mn : Option String)
    (msc : Option ℚ) (fi : Option (List (String × ℚ)))
    (resp : Schemas.StressPredictionResponse)
    (h : Schemas.mkStressPredictionResponse level score conf ins recs plan mn msc fi
      = some resp) :
    resp.score = score ∧ resp.confidence = conf ∧ resp.insights = ins ∧
    resp.recommendations = recs ∧ resp.wellness_plan = plan ∧
    0 ≤ score ∧ score ≤ 100 ∧ 0 ≤ conf ∧ conf ≤ 1 := by
  unfold Schemas.mkStressPredictionResponse at h
  split at h
  · simp at h
  · split at h
    · obtain rfl := Option.some.inj h
      refine ⟨rfl, rfl, rfl, rfl, rfl, ?_⟩
      assumption
    · simp at h

theorem app_predict_result (ms : Services.ModelService) (input : PyDict)
    (pr : Services.PredictResultDict)
    (h : App.ModelService.predict ms input = some pr) :
    pr.insights = App.ModelService._generate_insights input pr.level ∧
    pr.recommendations = Services.ModelService._generate_recommendations pr.level := by
  unfold App.ModelService.predict at h
  split at h
  · simp at h
  · split at h
    · simp at h
    · dsimp only at h
      split at h
      · simp at h
      · obtain rfl := Option.some.inj h
        exact ⟨rfl, rfl⟩

/-- A successful cache lookup is a cache membership. -/
theorem cacheLookup_mem {c : App.Cache} {k : String} {e : App.CacheEntry}
    (h : App.cacheLookup c k = some e) : ∃ k', (k', e) ∈ c := by
  unfold App.cacheLookup at h
  rcases hf : c.find? (fun p => p.1 == k) with _ | p
  · rw [hf] at h; simp at h
  · rw [hf] at h
    obtain rfl : p.2 = e := by simpa using h
    exact ⟨p.1, by simpa using List.mem_of_find?_eq_some hf⟩

/-- C1: for every valid request and every serving state whose cached responses are
well-formed, `predict_stress` returns a FormattedResponse with level among
Low/Medium/High, score in [0,100], confidence in [0,1], 1–5 insights, 1–6
recommendations, and 1–6 wellness-plan tasks. -/
theorem C1_response_bounds (st : App.AppState) (req : Schemas.StressPredictionRequest)
    (hcache : ∀ kv ∈ st.prediction_cache, GoodResponse kv.2.response) :
    GoodResponse (App.predict_stress st req).response := by
  unfold App.predict_stress
  cases hms : st.model_service with
  | none => cases st.model_loaded <;> exact goodResponse_fallback
  | some ms =>
      cases hld : st.model_loaded with
      | false => exact goodResponse_fallback
      | true =>
          dsimp only
          cases hlk : App.cacheLookup st.prediction_cache (App._generate_cache_key req) with
          | some entry =>
              cases hv : App._is_cache_valid st.now entry.timestamp with
              | true =>
                  simp only [hv, if_true]
                  obtain ⟨k', hmem⟩ := cacheLookup_mem hlk
                  exact hcache (k', entry) hmem
              | false =>
                  simp only [hv, Bool.false_eq_true, if_false]
                  cases hpd : App.ModelService.predict ms (Schemas.to_model_format req) with
                  | none => exact goodResponse_fallback
                  | some pr =>
                      dsimp only
                      cases hmk : Schemas.mkStressPredictionResponse pr.level pr.score
                          pr.confidence pr.insights pr.recommendations
                          (App._create_wellness_plan pr.level pr.insights)
                          (some pr.model_name) (some pr.model_score)
                          pr.feature_importance with
                      | none => exact goodResponse_fallback
                      | some resp =>
                          dsimp only
                          obtain ⟨e1, e2, e3, e4, e5, b1, b2, b3, b4⟩ :=
                            mkResponse_fields _ _ _ _ _ _ _ _ _ resp hmk
                          obtain ⟨pi, prr⟩ := app_predict_result ms _ pr hpd
                          refine ⟨by cases resp.level <;> simp, ?_, ?_, ?_, ?_,
                            ?_, ?_, ?_, ?_, ?_, ?_⟩
                          · rw [e1]; exact b1
                          · rw [e1]; exact b2
                          · rw [e2]; exact b3
                          · rw [e2]; exact b4
                          · rw [e3, pi]; exact (app_insights_len _ _).1
                          · rw [e3, pi]; exact (app_insights_len _ _).2
                          · rw [e4, prr]; exact (recommendations_len _).1
                          · rw [e4, prr]; exact (recommendations_len _).2
                          · rw [e5]; exact (wellness_tasks_len _ _).1
                          · rw [e5]; exact (wellness_tasks_len _ _).2
          | none =>
              cases hpd : App.ModelService.predict ms (Schemas.to_model_format req) with
              | none => exact goodResponse_fallback
              | some pr =>
                  dsimp only
                  cases hmk : Schemas.mkStressPredictionResponse pr.level pr.score
                      pr.confidence pr.insights pr.recommendations
                      (App._create_wellness_plan pr.level pr.insights)
                      (some pr.model_name) (some pr.model_score)
                      pr.feature_importance with
                  | none => exact goodResponse_fallback
                  | some resp =>
                      dsimp only
                      obtain ⟨e1, e2, e3, e4, e5, b1, b2, b3, b4⟩ :=
                        mkResponse_fields _ _ _ _ _ _ _ _ _ resp hmk
                      obtain ⟨pi, prr⟩ := app_predict_result ms _ pr hpd
                      refine ⟨by cases resp.level <;> simp, ?_, ?_, ?_, ?_,
                        ?_, ?_, ?_, ?_, ?_, ?_⟩
                      · rw [e1]; exact b1
                      · rw [e1]; exact b2
                      · rw [e2]; exact b3
                      · rw [e2]; exact b4
                      · rw [e3, pi]; exact (app_insights_len _ _).1
                      · rw [e3, pi]; exact (app_insights_len _ _).2
                      · rw [e4, prr]; exact (recommendations_len _).1
                      · rw [e4, prr]; exact (recommendations_len _).2
                      · rw [e5]; exact (wellness_tasks_len _ _).1
                      · rw [e5]; exact (wellness_tasks_len _ _).2

/-- Witness for C1: the bound at a concrete ready state with an empty cache. -/
theorem C1_response_bounds_witness :
    GoodResponse (App.predict_stress ⟨true, some msLow, [], 0⟩ reqExample).response :=
  C1_response_bounds ⟨true, some msLow, [], 0⟩ reqExample (by simp)

/-- C2: the fallback response is the fixed Medium/50/0.5 payload, and in degraded
state (no loaded model) `predict_stress` returns exactly it for every request and
every cache content, leaving the cache untouched and never invoking inference. -/
theorem C2_degraded_fallback :
    App._create_fallback_response.level = .medium ∧
    App._create_fallback_response.score = 50 ∧
    App._create_fallback_response.confidence = 1 / 2 ∧
    (∀ (st : App.AppState) (req : Schemas.StressPredictionRequest),
      st.model_loaded = false ∨ st.model_service = none →
      App.predict_stress st req =
        ⟨App._create_fallback_response, st.prediction_cache, false⟩) := by
  refine ⟨rfl, rfl, rfl, ?_⟩
  intro st req h
  unfold App.predict_stress
  cases hms : st.model_service with
  | none => cases st.model_loaded <;> rfl
  | some ms =>
      cases hld : st.model_loaded with
      | false => rfl
      | true =>
          rcases h with h | h
          · rw [hld] at h; exact absurd h (by simp)
          · rw [hms] at h; exact absurd h (by simp)

/-- Witness for C2: a concrete degraded state with a nonempty cache. -/
theorem C2_degraded_fallback_witness :
    App.predict_stress ⟨false, none, [("k", ⟨App._create_fallback_response, 0⟩)], 7⟩
        reqExample =
      ⟨App._create_fallback_response, [("k", ⟨App._create_fallback_response, 0⟩)], false⟩ :=
  C2_degraded_fallback.2.2.2 ⟨false, none, [("k", ⟨App._create_fallback_response, 0⟩)], 7⟩
    reqExample (Or.inl rfl)

theorem not_mem_cacheErase (c : App.Cache) (k : String) (e : App.CacheEntry) :
    (k, e) ∉ App.cacheErase c k := by
  simp [App.cacheErase, List.mem_filter]

/-- C3: (hit) while a cached entry for the same request is strictly younger than the
TTL, `predict_stress` returns the identical cached response without invoking the
classifier and leaves the cache unchanged; (expiry) once the entry is older than the
TTL the call runs a fresh inference and the stale entry is gone from the resulting
cache; (sweep) after any store, no entry older than the TTL remains. -/
theorem C3_cache_semantics :
    (∀ (st : App.AppState) (req : Schemas.StressPredictionRequest)
       (ms : Services.ModelService) (entry : App.CacheEntry),
       st.model_loaded = true → st.model_service = some ms →
       App.cacheLookup st.prediction_cache (App._generate_cache_key req) = some entry →
       st.now - entry.timestamp < App.cache_ttl →
       App.predict_stress st req = ⟨entry.response, st.prediction_cache, false⟩) ∧
    (∀ (st : App.AppState) (req : Schemas.StressPredictionRequest)
       (ms : Services.ModelService) (entry : App.CacheEntry),
       st.model_loaded = true → st.model_service = some ms →
       App.cacheLookup st.prediction_cache (App._generate_cache_key req) = some entry →
       st.now - entry.timestamp > App.cache_ttl →
       (App.predict_stress st req).inferenceInvoked = true ∧
       (App._generate_cache_key req, entry) ∉ (App.predict_stress st req).cache) ∧
    (∀ (c : App.Cache) (k : String) (e : App.CacheEntry) (now : ℚ)
       (kv : String × App.CacheEntry),
       kv ∈ App.cacheStore c k e now → ¬ now - kv.2.timestamp > App.cache_ttl) := by
  refine ⟨?_, ?_, ?_⟩
  · intro st req ms entry hld hms hlk hfresh
    have hv : App._is_cache_valid st.now entry.timestamp = true := by
      simp [App._is_cache_valid, hfresh]
    unfold App.predict_stress
    rw [hms, hld]
    dsimp only
    rw [hlk]
    dsimp only
    rw [hv]
    rfl
  · intro st req ms entry hld hms hlk hstale
    have hv : App._is_cache_valid st.now entry.timestamp = false := by
      simp only [App._is_cache_valid, decide_eq_false_iff_not, not_lt]
      exact le_of_lt hstale
    have hts : entry.timestamp ≠ st.now := by
      intro he
      rw [he] at hstale
      simp only [sub_self, App.cache_ttl] at hstale
      norm_num at hstale
    unfold App.predict_stress
    rw [hms, hld]
    dsimp only
    rw [hlk]
    dsimp only
    rw [hv]
    simp only [Bool.false_eq_true, if_false]
    cases hpd : App.ModelService.predict ms (Schemas.to_model_format req) with
    | none => exact ⟨rfl, not_mem_cacheErase _ _ _⟩
    | some pr =>
        dsimp only
        cases hmk : Schemas.mkStressPredictionResponse pr.level pr.score pr.confidence
            pr.insights pr.recommendations
            (App._create_wellness_plan pr.level pr.insights)
            (some pr.model_name) (some pr.model_score) pr.feature_importance with
        | none => exact ⟨rfl, not_mem_cacheErase _ _ _⟩
        | some resp =>
            dsimp only
            refine ⟨rfl, ?_⟩
            intro hmem
            simp only [App.cacheStore, List.mem_filter, List.mem_cons] at hmem
            rcases hmem.1 with heq | hin
            · exact hts (congrArg App.CacheEntry.timestamp (Prod.mk.injEq .. ▸ heq).2)
            · exact not_mem_cacheErase
                (App.cacheErase st.prediction_cache (App._generate_cache_key req))
                (App._generate_cache_key req) entry (by simpa using hin)
  · intro c k e now kv hkv
    simp only [App.cacheStore, List.mem_filter, decide_eq_true_eq] at hkv
    exact hkv.2

/-- Witness for C3: hit, expiry and sweep conjuncts at concrete states (entry created
at time 0, read at 100 — hit — and at 1000 — expired). -/
theorem C3_cache_semantics_witness :
    App.predict_stress
        ⟨true, some msLow,
          [(App._generate_cache_key reqExample, ⟨App._create_fallback_response, 0⟩)], 100⟩
        reqExample =
      ⟨App._create_fallback_response,
        [(App._generate_cache_key reqExample, ⟨App._create_fallback_response, 0⟩)],
        false⟩ ∧
    (App.predict_stress
        ⟨true, some msLow,
          [(App._generate_cache_key reqExample, ⟨App._create_fallback_response, 0⟩)], 1000⟩
        reqExample).inferenceInvoked = true ∧
    ¬ (0 : ℚ) - (App.CacheEntry.mk App._create_fallback_response 0).timestamp >
      App.cache_ttl := by
  refine ⟨?_, ?_, ?_⟩
  · exact C3_cache_semantics.1 _ reqExample msLow ⟨App._create_fallback_response, 0⟩
      rfl rfl (by simp [App.cacheLookup]) (by norm_num [App.cache_ttl])
  · exact (C3_cache_semantics.2.1 _ reqExample msLow ⟨App._create_fallback_response, 0⟩
      rfl rfl (by simp [App.cacheLookup]) (by norm_num [App.cache_ttl])).1
  · exact C3_cache_semantics.2.2 [] "k" ⟨App._create_fallback_response, 0⟩ 0
      ("k", ⟨App._create_fallback_response, 0⟩)
      (by simp [App.cacheStore, App.cacheErase, App.cache_ttl])
